import Mathlib

/-
Verification of the keyword-analysis helpers in `seo_functions.py`
(`calculate_opportunity_score`, `detect_seasonality`, `calculate_growth_rate`,
`generate_recommendation`).

Modelling conventions (shallow embedding of the Python source):
* Python values that can appear in a keyword record are modelled by `Val`:
  `None`, `int`, `float`, `str`, `list`, `dict` (with string keys, as produced
  by the JSON vendor APIs).  Python numbers are modelled as exact rationals;
  IEEE-754 representation effects are out of scope.  `round(x, 1)` is modelled
  as round-half-to-even on the exact rational (`rne`), Python's rounding mode.
* A Python function that can raise an uncaught exception is embedded as a
  function into `Except PyExc _`; exceptions that the source catches locally
  (`try`/`except`) are resolved inside the corresponding helper definition.
* `float(x)` is modelled by `pyFloat`: conversion succeeds on ints, floats and
  plain decimal string literals (optional sign, digits, optional fraction,
  surrounding whitespace); on everything else it fails, which the source
  always catches as `TypeError`/`ValueError`.  Scientific notation, inf/nan
  strings and underscore separators are out of scope.
* A keyword record is a structure of the four fields the functions read;
  a missing field is `none`, an explicit JSON null is `some Val.null`.
-/

inductive Val where
  | null : Val
  | int : ℤ → Val
  | float : ℚ → Val
  | str : String → Val
  | list : List Val → Val
  | dict : List (String × Val) → Val

inductive PyExc where
  | typeError : PyExc
  | attributeError : PyExc
  | indexError : PyExc
  | keyError : PyExc
deriving DecidableEq, Repr

/-- Python truthiness (`bool(v)`) for the modelled values. -/
def pyTruthy : Val → Bool
  | .null => false
  | .int n => n ≠ 0
  | .float q => q ≠ 0
  | .str s => ¬s.isEmpty
  | .list xs => ¬xs.isEmpty
  | .dict kvs => ¬kvs.isEmpty

/-- Python `v or d`: `v` if truthy, else `d`. -/
def pyOrDefault (v d : Val) : Val := if pyTruthy v then v else d

/-- Python `isinstance(v, (int, float))`, returning the numeric value. -/
def pyNum : Val → Option ℚ
  | .int n => some (n : ℚ)
  | .float q => some q
  | _ => none

/-- Value of a digit list read most-significant first, `none` if a non-digit occurs. -/
def digitsValAux (acc : ℕ) : List Char → Option ℕ
  | [] => some acc
  | c :: cs => if c.isDigit then digitsValAux (acc * 10 + (c.toNat - 48)) cs else none

/-- Python `float(s)` on a string: plain decimal literals only (see header). -/
def parseDecStr (s : String) : Option ℚ :=
  let t := s.trim
  let (sgn, body) :=
    match t.data with
    | '-' :: rest => ((-1 : ℚ), rest)
    | '+' :: rest => ((1 : ℚ), rest)
    | cs => ((1 : ℚ), cs)
  match (String.mk body).splitOn "." with
  | [a] =>
    match digitsValAux 0 a.data with
    | some n => if a.data.isEmpty then none else some (sgn * (n : ℚ))
    | none => none
  | [a, b] =>
    if a.data.isEmpty ∧ b.data.isEmpty then none
    else
      match digitsValAux 0 a.data, digitsValAux 0 b.data with
      | some n, some f => some (sgn * ((n : ℚ) + (f : ℚ) / (10 : ℚ) ^ b.data.length))
      | _, _ => none
  | _ => none

/-- Python `float(v)`: `some` the exact value, `none` when the conversion
raises (`TypeError`/`ValueError`), which every call site catches. -/
def pyFloat : Val → Option ℚ
  | .int n => some (n : ℚ)
  | .float q => some q
  | .str s => parseDecStr s
  | _ => none

/-- First-match association-list lookup, modelling `d.get(key, dflt)` on a dict. -/
def dictLookup : List (String × Val) → String → Val → Val
  | [], _, d => d
  | (k, v) :: rest, key, d => if k = key then v else dictLookup rest key d

/-- Python `m.get(key, dflt)`: succeeds on dicts, raises `AttributeError` otherwise. -/
def getEntryVal (m : Val) (key : String) (dflt : Val) : Except PyExc Val :=
  match m with
  | .dict kvs => .ok (dictLookup kvs key dflt)
  | _ => .error .attributeError

/-- The element sequence of a Python value: lists give their elements, strings
their characters, dicts their keys; other values are not iterable/sized. -/
def pyElems : Val → Except PyExc (List Val)
  | .list xs => .ok xs
  | .str s => .ok (s.data.map (fun c => Val.str c.toString))
  | .dict kvs => .ok (kvs.map (fun kv => Val.str kv.1))
  | _ => .error .typeError

/-- Python `len(v)` (raises `TypeError` on non-sized values). -/
def pyLen (v : Val) : Except PyExc ℕ := (pyElems v).map List.length

/-- Python list indexing with negative wrap-around, `none` when out of range. -/
def pyListGet {α : Type} (xs : List α) (i : ℤ) : Option α :=
  if 0 ≤ i then xs.get? i.toNat
  else if 0 ≤ (xs.length : ℤ) + i then xs.get? ((xs.length : ℤ) + i).toNat
  else none

/-- Python `v[i]` for an integer `i`. -/
def pyIndexInt (v : Val) (i : ℤ) : Except PyExc Val :=
  match v with
  | .list xs =>
    match pyListGet xs i with
    | some x => .ok x
    | none => .error .indexError
  | .str s =>
    match pyListGet s.data i with
    | some c => .ok (.str c.toString)
    | none => .error .indexError
  | .dict _ => .error .keyError
  | _ => .error .typeError

/-- Round half to even to an integer (Python `round`), on exact rationals:
on a tie (fractional part exactly 1/2) pick the even neighbour, otherwise
round to the nearest integer, which is `⌊x + 1/2⌋`. -/
def rne (x : ℚ) : ℤ :=
  if 2 * x = 2 * (⌊x⌋ : ℚ) + 1 then (if ⌊x⌋ % 2 = 0 then ⌊x⌋ else ⌊x⌋ + 1)
  else ⌊x + 1 / 2⌋

/-- Python `round(x, 1)` on the exact rational value. -/
def round1 (q : ℚ) : ℚ := (rne (10 * q) : ℚ) / 10

/-- A keyword record: the four fields the analysed functions read.
`none` is a missing key, `some Val.null` an explicit null. -/
structure KeywordData where
  search_volume : Option Val := none
  competition : Option Val := none
  monthly_searches : Option Val := none
  competition_level : Option Val := none

/-- Result dict of `detect_seasonality`. -/
structure SeasonResult where
  is_seasonal : Bool
  peak_months : List String
  low_months : List String
deriving DecidableEq, Repr

def seasonDefault : SeasonResult := ⟨false, [], []⟩

/-- Substitution step of `calculate_opportunity_score`:
`if competition is None or competition == 0: competition = 0.5`. -/
def substComp (c0 : Val) : Val :=
  match c0 with
  | .null => .float (1 / 2)
  | .int n => if n = 0 then .float (1 / 2) else .int n
  | .float q => if q = 0 then .float (1 / 2) else .float q
  | _ => c0

/-- Embeds `growth_factor = float(recent) / float(old) if old > 0 else 1.0`, with
`except (TypeError, ValueError, ZeroDivisionError): growth_factor = 1.0`.
A non-numeric `old` makes the comparison `old > 0` raise, hence `1.0`. -/
def growthFactorOf (recent old : Val) : ℚ :=
  match old with
  | .int n =>
    if 0 < n then
      match pyFloat recent with
      | some r => r / (n : ℚ)
      | none => 1
    else 1
  | .float q =>
    if 0 < q then
      match pyFloat recent with
      | some r => r / q
      | none => 1
    else 1
  | _ => 1

/-- Embeds `score = (volume * growth_factor) / (competition * 100)` then
`round(min(score, 10.0), 1)`, with `ZeroDivisionError` caught as `0.0`. -/
def scoreOf (v c gf : ℚ) : ℚ :=
  if c = 0 then 0 else round1 (min ((v * gf) / (c * 100)) 10)

/-- Monthly-searches part of `calculate_opportunity_score`: growth factor from
`monthly[0]` (volume default 0) and `monthly[-1]` (volume default 1). -/
def opScoreMonthly (v c : ℚ) (mv : Val) : Except PyExc ℚ :=
  match pyLen mv with
  | .error e => .error e
  | .ok n =>
    if 2 ≤ n then
      match pyIndexInt mv 0 with
      | .error e => .error e
      | .ok e0 =>
        match getEntryVal e0 "search_volume" (Val.int 0) with
        | .error e => .error e
        | .ok r0 =>
          match pyIndexInt mv (-1) with
          | .error e => .error e
          | .ok eL =>
            match getEntryVal eL "search_volume" (Val.int 1) with
            | .error e => .error e
            | .ok o0 =>
              .ok (scoreOf v c
                (growthFactorOf (pyOrDefault r0 (Val.int 0)) (pyOrDefault o0 (Val.int 1))))
    else .ok (scoreOf v c 1)

/-- Body of `calculate_opportunity_score` on the three extracted fields:
`volume` is `get("search_volume", 0) or 0`, `comp` the substituted
competition; a failing `float()` conversion returns `0.0` before the
monthly data is touched. -/
def opScoreBody (v0 c0 mv : Val) : Except PyExc ℚ :=
  match pyFloat (pyOrDefault v0 (Val.int 0)), pyFloat (substComp c0) with
  | some v, some c => opScoreMonthly v c mv
  | _, _ => .ok 0

/-- Embedding of `calculate_opportunity_score(keyword_data)` from `seo_functions.py`. -/
def calculate_opportunity_score (kd : KeywordData) : Except PyExc ℚ :=
  opScoreBody (kd.search_volume.getD (Val.int 0)) (kd.competition.getD Val.null)
    (kd.monthly_searches.getD (Val.list []))

/-- Body of `calculate_growth_rate` on the extracted `monthly_searches` value. -/
def growthBody (mv : Val) : Except PyExc ℚ :=
  if pyTruthy mv = false then .ok 0
  else
    match pyLen mv with
    | .error e => .error e
    | .ok n =>
      if n < 2 then .ok 0
      else
        match pyIndexInt mv 0 with
        | .error e => .error e
        | .ok e0 =>
          match getEntryVal e0 "search_volume" (Val.int 0) with
          | .error e => .error e
          | .ok r0 =>
            match pyIndexInt mv (-1) with
            | .error e => .error e
            | .ok eL =>
              match getEntryVal eL "search_volume" (Val.int 0) with
              | .error e => .error e
              | .ok o0 =>
                match pyFloat (pyOrDefault r0 (Val.int 0)),
                    pyFloat (pyOrDefault o0 (Val.int 0)) with
                | some r, some o =>
                  .ok (if o = 0 then 0 else round1 (((r - o) / o) * 100))
                | _, _ => .ok 0

/-- Embedding of `calculate_growth_rate(keyword_data)` from `seo_functions.py`. -/
def calculate_growth_rate (kd : KeywordData) : Except PyExc ℚ :=
  growthBody (kd.monthly_searches.getD (Val.list []))

/-- Embeds `volumes = [m.get("search_volume", 0) or 0 for m in monthly]`. -/
def rawVolumes : List Val → Except PyExc (List Val)
  | [] => .ok []
  | m :: rest =>
    match getEntryVal m "search_volume" (Val.int 0) with
    | .error e => .error e
    | .ok v0 =>
      match rawVolumes rest with
      | .error e => .error e
      | .ok vs => .ok (pyOrDefault v0 (Val.int 0) :: vs)

def monthNames : List String :=
  ["Jan", "Feb", "Mar", "Apr", "May", "Jun", "Jul", "Aug", "Sep", "Oct", "Nov", "Dec"]

/-- The `[...names...][month - 1]` lookup: only an int month indexes the list
(a float or string index raises `TypeError`, caught by the loop), and a
failing index raises `IndexError`, also caught; both give `none`. -/
def monthIdx (mo : Val) : Option String :=
  match mo with
  | .int n => pyListGet monthNames (n - 1)
  | _ => none

/-- One iteration of the classification loop of `detect_seasonality` on the
or-0 volume and the raw month value: `some (true, name)` appends to
`peak_months`, `some (false, name)` to `low_months`, `none` is `continue`. -/
def classifyOne (avg : ℚ) (vol mo : Val) : Option (Bool × String) :=
  match pyNum vol with
  | none => none
  | some q =>
    if pyTruthy mo = false then none
    else if avg * (5 / 4) < q then (monthIdx mo).map (fun nm => (true, nm))
    else if q < avg * (3 / 4) then (monthIdx mo).map (fun nm => (false, nm))
    else none

/-- The classification loop of `detect_seasonality` over the month entries. -/
def classifyAll (avg : ℚ) : List Val → Except PyExc (List String × List String)
  | [] => .ok ([], [])
  | m :: rest =>
    match getEntryVal m "search_volume" (Val.int 0) with
    | .error e => .error e
    | .ok v0 =>
      match getEntryVal m "month" Val.null with
      | .error e => .error e
      | .ok mo =>
        match classifyAll avg rest with
        | .error e => .error e
        | .ok (ps, ls) =>
          .ok
            (match classifyOne avg (pyOrDefault v0 (Val.int 0)) mo with
             | some (true, nm) => (nm :: ps, ls)
             | some (false, nm) => (ps, nm :: ls)
             | none => (ps, ls))

/-- Body of `detect_seasonality` on the extracted `monthly_searches` value. -/
def seasonBody (mv : Val) : Except PyExc SeasonResult :=
  if pyTruthy mv = false then .ok seasonDefault
  else
    match pyLen mv with
    | .error e => .error e
    | .ok n =>
      if n < 12 then .ok seasonDefault
      else
        match pyElems mv with
        | .error e => .error e
        | .ok items =>
          match rawVolumes items with
          | .error e => .error e
          | .ok raw =>
            let volumes := raw.filterMap pyNum
            if volumes.isEmpty then .ok seasonDefault
            else
              let avg := volumes.sum / (volumes.length : ℚ)
              if avg = 0 then .ok seasonDefault
              else
                match classifyAll avg items with
                | .error e => .error e
                | .ok (peaks, lows) =>
                  .ok ⟨¬peaks.isEmpty ∨ ¬lows.isEmpty, peaks, lows⟩

/-- Embedding of `detect_seasonality(keyword_data)` from `seo_functions.py`. -/
def detect_seasonality (kd : KeywordData) : Except PyExc SeasonResult :=
  seasonBody (kd.monthly_searches.getD (Val.list []))

/-- The opening opportunity-tier clause of `generate_recommendation`. -/
def tierClause (score : ℚ) : String :=
  if 7 ≤ score then "✅ Excellent opportunity! "
  else if 4 ≤ score then "⚠️ Good opportunity with caveats. "
  else "❌ Difficult keyword. "

/-- Python `str()` of a float that is an exact multiple of 1/10, as the
interpolation `f"{growth}"` prints the one-decimal rounded growth value
(scientific notation for huge magnitudes is out of scope). -/
def fmtTenth (q : ℚ) : String :=
  let a : ℚ := if q < 0 then -q else q
  let t : ℤ := ⌊10 * a⌋
  (if q < 0 then "-" else "") ++ toString (t / 10) ++ "." ++ toString (t % 10)

/-- Python `v == s` for a string literal `s`. -/
def pyEqStr (v : Val) (s : String) : Bool :=
  match v with
  | .str t => t = s
  | _ => false

/-- The `rec` string built by `generate_recommendation` from the three
computed values and the raw `competition_level` field. -/
def recMessage (score growth : ℚ) (seasonality : SeasonResult) (competition : Val) : String :=
  let msg1 := tierClause score
  let msg2 :=
    if 10 < growth then msg1 ++ "Growing fast (+" ++ fmtTenth growth ++ "%). "
    else if growth < -10 then msg1 ++ "Declining (" ++ fmtTenth growth ++ "%). "
    else msg1
  let msg3 :=
    if seasonality.is_seasonal = true ∧ ¬seasonality.peak_months.isEmpty then
      msg2 ++ "Peaks in " ++ String.intercalate ", " (seasonality.peak_months.take 3) ++ ". "
    else msg2
  if pyEqStr competition "HIGH" then
    msg3 ++ "High competition - consider long-tail variations."
  else if pyEqStr competition "LOW" then
    msg3 ++ "Low competition - great for quick wins!"
  else msg3

/-- Embedding of `generate_recommendation(keyword_data)` from `seo_functions.py`. -/
def generate_recommendation (kd : KeywordData) : Except PyExc String :=
  match calculate_opportunity_score kd with
  | .error e => .error e
  | .ok score =>
    match calculate_growth_rate kd with
    | .error e => .error e
    | .ok growth =>
      match detect_seasonality kd with
      | .error e => .error e
      | .ok seasonality =>
        .ok (recMessage score growth seasonality (kd.competition_level.getD (Val.str "UNKNOWN")))

/-- A Python dict value. -/
def IsDict (v : Val) : Prop := ∃ kvs, v = Val.dict kvs

/-- Python `m.get(key, d)` as a total function on entries (junk value on non-dicts,
where the real call raises; used only under `IsDict` hypotheses). -/
def entryLookup (m : Val) (key : String) (d : Val) : Val :=
  match m with
  | .dict kvs => dictLookup kvs key d
  | _ => d

/-- The extraction `m.get("search_volume", 0) or 0`, shared by the
growth-rate, seasonality-average and most-recent-month code paths. -/
def entrySv (m : Val) : Val :=
  pyOrDefault (entryLookup m "search_volume" (Val.int 0)) (Val.int 0)

/-- Returns `true` iff `float(v)` either fails or yields a non-negative number. -/
def NonnegF (v : Val) : Bool :=
  match pyFloat v with
  | some q => decide (0 ≤ q)
  | none => true

lemma NonnegF_sound {v : Val} {q : ℚ} (h : NonnegF v = true) (hq : pyFloat v = some q) :
    0 ≤ q := by
  unfold NonnegF at h
  rw [hq] at h
  exact of_decide_eq_true h

lemma NonnegF_pyOrDefault {v d : Val} (hv : NonnegF v = true) (hd : NonnegF d = true) :
    NonnegF (pyOrDefault v d) = true := by
  unfold pyOrDefault
  split <;> assumption

lemma NonnegF_substComp {c : Val} (hc : NonnegF c = true) : NonnegF (substComp c) = true := by
  have hhalf : NonnegF (Val.float (1 / 2)) = true := by
    simp only [NonnegF, pyFloat, decide_eq_true_eq]
    norm_num
  cases c with
  | null => exact hhalf
  | int n =>
    simp only [substComp]
    split
    · exact hhalf
    · exact hc
  | float q =>
    simp only [substComp]
    split
    · exact hhalf
    · exact hc
  | str s => exact hc
  | list xs => exact hc
  | dict kvs => exact hc

lemma growthFactorOf_nonneg {recent : Val} (old : Val) (h : NonnegF recent = true) :
    0 ≤ growthFactorOf recent old := by
  cases old with
  | int n =>
    simp only [growthFactorOf]
    split
    · rename_i hn
      rcases heq : pyFloat recent with _ | r
      · norm_num
      · have hr := NonnegF_sound h heq
        have : (0 : ℚ) ≤ (n : ℚ) := by exact_mod_cast le_of_lt hn
        exact div_nonneg hr this
    · norm_num
  | float q =>
    simp only [growthFactorOf]
    split
    · rename_i hq
      rcases heq : pyFloat recent with _ | r
      · norm_num
      · exact div_nonneg (NonnegF_sound h heq) (le_of_lt hq)
    · norm_num
  | null => norm_num [growthFactorOf]
  | str s => norm_num [growthFactorOf]
  | list xs => norm_num [growthFactorOf]
  | dict kvs => norm_num [growthFactorOf]

lemma rne_nonneg (x : ℚ) (hx : 0 ≤ x) : 0 ≤ rne x := by
  have h0 : (0 : ℤ) ≤ ⌊x⌋ := Int.floor_nonneg.mpr hx
  by_cases h : 2 * x = 2 * (⌊x⌋ : ℚ) + 1
  · simp only [rne, if_pos h]
    split <;> omega
  · simp only [rne, if_neg h]
    exact Int.floor_nonneg.mpr (by linarith)

lemma rne_le (x : ℚ) (n : ℤ) (h : x ≤ (n : ℚ)) : rne x ≤ n := by
  have hf : ⌊x⌋ ≤ n := by
    have := Int.floor_le_floor h
    rwa [Int.floor_intCast] at this
  by_cases htie : 2 * x = 2 * (⌊x⌋ : ℚ) + 1
  · simp only [rne, if_pos htie]
    have hlt : ⌊x⌋ < n := by
      rcases lt_or_eq_of_le hf with h1 | h1
      · exact h1
      · exfalso
        rw [h1] at htie
        have hx : x = (n : ℚ) + 1 / 2 := by linarith
        rw [hx] at h
        linarith
    split <;> omega
  · simp only [rne, if_neg htie]
    have hlt : x + 1 / 2 < ((n + 1 : ℤ) : ℚ) := by push_cast; linarith
    have := Int.floor_lt.mpr hlt
    omega

lemma round1_nonneg (q : ℚ) (h : 0 ≤ q) : 0 ≤ round1 q := by
  unfold round1
  have : (0 : ℤ) ≤ rne (10 * q) := rne_nonneg _ (by linarith)
  have : (0 : ℚ) ≤ (rne (10 * q) : ℚ) := by exact_mod_cast this
  linarith

lemma round1_le_ten (q : ℚ) (h : q ≤ 10) : round1 q ≤ 10 := by
  unfold round1
  have h1 : rne (10 * q) ≤ 100 := by
    apply rne_le
    push_cast
    linarith
  have h2 : (rne (10 * q) : ℚ) ≤ 100 := by exact_mod_cast h1
  linarith

lemma scoreOf_nonneg (v c gf : ℚ) (hv : 0 ≤ v) (hc : 0 ≤ c) (hgf : 0 ≤ gf) :
    0 ≤ scoreOf v c gf := by
  unfold scoreOf
  by_cases h : c = 0
  · simp [h]
  · have hcpos : 0 < c := lt_of_le_of_ne hc (Ne.symm h)
    rw [if_neg h]
    apply round1_nonneg
    apply le_min _ (by norm_num)
    positivity

lemma scoreOf_le_ten (v c gf : ℚ) : scoreOf v c gf ≤ 10 := by
  unfold scoreOf
  by_cases h : c = 0
  · simp [h]
  · rw [if_neg h]
    exact round1_le_ten _ (min_le_right _ _)

lemma pyListGet_zero {α : Type} (xs : List α) : pyListGet xs 0 = xs.head? := by
  cases xs with
  | nil => rfl
  | cons a l => rfl

lemma pyListGet_neg_one {α : Type} (xs : List α) : pyListGet xs (-1) = xs.getLast? := by
  cases xs with
  | nil => rfl
  | cons a l =>
    simp only [pyListGet]
    rw [if_neg (by norm_num)]
    have h2 : (0 : ℤ) ≤ ((a :: l).length : ℤ) + -1 := by
      simp only [List.length_cons]
      push_cast
      omega
    rw [if_pos h2]
    have h3 : (((a :: l).length : ℤ) + -1).toNat = (a :: l).length - 1 := by
      simp only [List.length_cons]
      omega
    rw [h3, List.get?_eq_getElem?]
    exact (List.getLast?_eq_getElem? _).symm

lemma pyListGet_mem {α : Type} (xs : List α) (i : ℤ) (a : α)
    (h : pyListGet xs i = some a) : a ∈ xs := by
  unfold pyListGet at h
  split at h
  · exact List.get?_mem h
  · split at h
    · exact List.get?_mem h
    · cases h

lemma getEntryVal_dict (kvs : List (String × Val)) (k : String) (d : Val) :
    getEntryVal (Val.dict kvs) k d = .ok (dictLookup kvs k d) := rfl

lemma dictLookup_null_orDefault (kvs : List (String × Val)) (k : String) (d : Val)
    (h : dictLookup kvs k Val.null = Val.null) :
    pyOrDefault (dictLookup kvs k d) d = d := by
  induction kvs with
  | nil =>
    simp only [dictLookup, pyOrDefault]
    exact ite_self d
  | cons kv rest ih =>
    obtain ⟨k0, v⟩ := kv
    simp only [dictLookup] at h ⊢
    by_cases hk : k0 = k
    · rw [if_pos hk] at h ⊢
      subst h
      rfl
    · rw [if_neg hk] at h ⊢
      exact ih h

/-- The volume list `detect_seasonality` averages over, in closed form:
per entry `m.get("search_volume", 0) or 0`, keeping the numeric values. -/
def seasonVols (xs : List Val) : List ℚ := (xs.map entrySv).filterMap pyNum

/-- The average `detect_seasonality` compares each month against. -/
def seasonAvg (xs : List Val) : ℚ := (seasonVols xs).sum / ((seasonVols xs).length : ℚ)

/-- Closed form of one loop step's contribution to `peak_months`. -/
def peakOf (avg : ℚ) (m : Val) : Option String :=
  match classifyOne avg (entrySv m) (entryLookup m "month" Val.null) with
  | some (true, nm) => some nm
  | _ => none

/-- Closed form of one loop step's contribution to `low_months`. -/
def lowOf (avg : ℚ) (m : Val) : Option String :=
  match classifyOne avg (entrySv m) (entryLookup m "month" Val.null) with
  | some (false, nm) => some nm
  | _ => none

/-- The month-name selection `[...][month - 1]` actually performed by the
code on an int month, in arithmetic form: months 1..12 map to their standard
abbreviation, months -11..-1 wrap around (Python negative indexing) to the
abbreviation of month `12 + n`, everything else is an `IndexError`, caught
and skipped.  (Month 0 never reaches the lookup: it is falsy.) -/
def monthAbbrev (n : ℤ) : Option String :=
  if 1 ≤ n ∧ n ≤ 12 then monthNames.get? (n - 1).toNat
  else if -11 ≤ n ∧ n ≤ 0 then monthNames.get? (n + 11).toNat
  else none

lemma rawVolumes_eq (xs : List Val) (hd : ∀ m ∈ xs, IsDict m) :
    rawVolumes xs = .ok (xs.map entrySv) := by
  induction xs with
  | nil => rfl
  | cons m rest ih =>
    obtain ⟨kvs, hm⟩ := hd m (List.mem_cons_self m rest)
    subst hm
    simp only [rawVolumes, getEntryVal_dict]
    rw [ih (fun x hx => hd x (List.mem_cons_of_mem _ hx))]
    rfl

lemma classifyAll_eq (avg : ℚ) (xs : List Val) (hd : ∀ m ∈ xs, IsDict m) :
    classifyAll avg xs = .ok (xs.filterMap (peakOf avg), xs.filterMap (lowOf avg)) := by
  induction xs with
  | nil => rfl
  | cons m rest ih =>
    obtain ⟨kvs, hm⟩ := hd m (List.mem_cons_self m rest)
    subst hm
    simp only [classifyAll, getEntryVal_dict]
    rw [ih (fun x hx => hd x (List.mem_cons_of_mem _ hx))]
    have hsc : pyOrDefault (dictLookup kvs "search_volume" (Val.int 0)) (Val.int 0) =
        entrySv (Val.dict kvs) := rfl
    have hmo : dictLookup kvs "month" Val.null =
        entryLookup (Val.dict kvs) "month" Val.null := rfl
    rw [hsc, hmo]
    rcases hcl : classifyOne avg (entrySv (Val.dict kvs))
        (entryLookup (Val.dict kvs) "month" Val.null) with _ | ⟨b, nm⟩
    · simp [List.filterMap_cons, peakOf, lowOf, hcl]
    · cases b
      · simp [List.filterMap_cons, peakOf, lowOf, hcl]
      · simp [List.filterMap_cons, peakOf, lowOf, hcl]

lemma seasonBody_eq (xs : List Val) (hd : ∀ m ∈ xs, IsDict m) (h12 : 12 ≤ xs.length) :
    seasonBody (Val.list xs) =
      (if (seasonVols xs).isEmpty = true then .ok seasonDefault
       else if seasonAvg xs = 0 then .ok seasonDefault
       else .ok ⟨¬(xs.filterMap (peakOf (seasonAvg xs))).isEmpty ∨
                  ¬(xs.filterMap (lowOf (seasonAvg xs))).isEmpty,
                 xs.filterMap (peakOf (seasonAvg xs)),
                 xs.filterMap (lowOf (seasonAvg xs))⟩) := by
  have hne : xs ≠ [] := by
    intro h
    subst h
    simp at h12
  have htr : pyTruthy (Val.list xs) = true := by
    simpa [pyTruthy, List.isEmpty_iff] using hne
  unfold seasonBody
  rw [htr]
  simp only [Bool.true_eq_false, if_false]
  simp only [pyLen, pyElems, Except.map]
  rw [if_neg (by omega)]
  simp only [rawVolumes_eq xs hd,
    show ∀ avg, classifyAll avg xs = .ok (xs.filterMap (peakOf avg), xs.filterMap (lowOf avg))
      from fun avg => classifyAll_eq avg xs hd]
  rfl

lemma opScoreMonthly_ok (v c : ℚ) (xs : List Val) (hd : ∀ m ∈ xs, IsDict m) :
    ∃ q, opScoreMonthly v c (Val.list xs) = .ok q := by
  unfold opScoreMonthly
  simp only [pyLen, pyElems, Except.map]
  by_cases h2 : 2 ≤ xs.length
  · rw [if_pos h2]
    have hne : xs ≠ [] := by
      intro h
      subst h
      simp at h2
    obtain ⟨e0, he0⟩ : ∃ e0, pyListGet xs 0 = some e0 := by
      rw [pyListGet_zero]
      cases xs with
      | nil => exact absurd rfl hne
      | cons a l => exact ⟨a, rfl⟩
    obtain ⟨eL, heL⟩ : ∃ eL, pyListGet xs (-1) = some eL := by
      rw [pyListGet_neg_one]
      exact ⟨_, List.getLast?_eq_getLast_of_ne_nil hne⟩
    simp only [pyIndexInt, he0, heL]
    obtain ⟨kvs0, hk0⟩ := hd e0 (pyListGet_mem _ _ _ he0)
    obtain ⟨kvsL, hkL⟩ := hd eL (pyListGet_mem _ _ _ heL)
    subst hk0
    subst hkL
    simp only [getEntryVal_dict]
    exact ⟨_, rfl⟩
  · rw [if_neg h2]
    exact ⟨_, rfl⟩

lemma opScoreBody_ok (v0 c0 : Val) (xs : List Val) (hd : ∀ m ∈ xs, IsDict m) :
    ∃ q, opScoreBody v0 c0 (Val.list xs) = .ok q := by
  unfold opScoreBody
  rcases hv : pyFloat (pyOrDefault v0 (Val.int 0)) with _ | v
  · exact ⟨0, rfl⟩
  · rcases hc : pyFloat (substComp c0) with _ | c
    · exact ⟨0, rfl⟩
    · exact opScoreMonthly_ok v c xs hd

lemma growthBody_ok (xs : List Val) (hd : ∀ m ∈ xs, IsDict m) :
    ∃ q, growthBody (Val.list xs) = .ok q := by
  unfold growthBody
  by_cases htr : pyTruthy (Val.list xs) = false
  · rw [if_pos htr]
    exact ⟨0, rfl⟩
  · rw [if_neg htr]
    simp only [pyLen, pyElems, Except.map]
    by_cases h2 : xs.length < 2
    · rw [if_pos h2]
      exact ⟨0, rfl⟩
    · rw [if_neg h2]
      have hne : xs ≠ [] := by
        intro h
        subst h
        simp at h2
      obtain ⟨e0, he0⟩ : ∃ e0, pyListGet xs 0 = some e0 := by
        rw [pyListGet_zero]
        cases xs with
        | nil => exact absurd rfl hne
        | cons a l => exact ⟨a, rfl⟩
      obtain ⟨eL, heL⟩ : ∃ eL, pyListGet xs (-1) = some eL := by
        rw [pyListGet_neg_one]
        exact ⟨_, List.getLast?_eq_getLast_of_ne_nil hne⟩
      simp only [pyIndexInt, he0, heL]
      obtain ⟨kvs0, hk0⟩ := hd e0 (pyListGet_mem _ _ _ he0)
      obtain ⟨kvsL, hkL⟩ := hd eL (pyListGet_mem _ _ _ heL)
      subst hk0
      subst hkL
      simp only [getEntryVal_dict]
      rcases pyFloat (pyOrDefault (dictLookup kvs0 "search_volume" (Val.int 0)) (Val.int 0)) with
        _ | r
      · exact ⟨0, rfl⟩
      · rcases pyFloat (pyOrDefault (dictLookup kvsL "search_volume" (Val.int 0)) (Val.int 0)) with
          _ | o
        · exact ⟨0, rfl⟩
        · exact ⟨_, rfl⟩

lemma seasonBody_ok (xs : List Val) (hd : ∀ m ∈ xs, IsDict m) :
    ∃ r, seasonBody (Val.list xs) = .ok r := by
  by_cases h12 : 12 ≤ xs.length
  · rw [seasonBody_eq xs hd h12]
    split
    · exact ⟨_, rfl⟩
    · split
      · exact ⟨_, rfl⟩
      · exact ⟨_, rfl⟩
  · unfold seasonBody
    by_cases htr : pyTruthy (Val.list xs) = false
    · rw [if_pos htr]
      exact ⟨_, rfl⟩
    · rw [if_neg htr]
      simp only [pyLen, pyElems, Except.map]
      rw [if_pos (by omega)]
      exact ⟨_, rfl⟩

lemma generate_recommendation_ok (kd : KeywordData) (xs : List Val)
    (hm : kd.monthly_searches.getD (Val.list []) = Val.list xs)
    (hd : ∀ m ∈ xs, IsDict m) :
    ∃ s, generate_recommendation kd = .ok s := by
  obtain ⟨q, hq⟩ :=
    opScoreBody_ok (kd.search_volume.getD (Val.int 0)) (kd.competition.getD Val.null) xs hd
  obtain ⟨g, hg⟩ := growthBody_ok xs hd
  obtain ⟨r, hr⟩ := seasonBody_ok xs hd
  unfold generate_recommendation calculate_opportunity_score calculate_growth_rate
    detect_seasonality
  rw [hm, hq, hg, hr]
  exact ⟨_, rfl⟩

/-- C1 (amended): the score is capped at 10.0 for every well-formed record,
and it is also non-negative provided the record's `search_volume`, its
`competition`, and the most-recent monthly volume are non-negative wherever
they convert to numbers; without that proviso the code can return a negative
score (see the counterexample). -/
theorem opportunity_score_clamped (kd : KeywordData) (xs : List Val)
    (hm : kd.monthly_searches.getD (Val.list []) = Val.list xs)
    (hd : ∀ m ∈ xs, IsDict m)
    (hv : NonnegF (kd.search_volume.getD (Val.int 0)) = true)
    (hc : NonnegF (kd.competition.getD Val.null) = true)
    (hr : ∀ m ∈ xs, NonnegF (entrySv m) = true) :
    ∃ q, calculate_opportunity_score kd = .ok q ∧ 0 ≤ q ∧ q ≤ 10 := by
  have hv' : NonnegF (pyOrDefault (kd.search_volume.getD (Val.int 0)) (Val.int 0)) = true :=
    NonnegF_pyOrDefault hv (by norm_num [NonnegF, pyFloat])
  have hc' := NonnegF_substComp hc
  unfold calculate_opportunity_score
  rw [hm]
  unfold opScoreBody
  rcases hfv : pyFloat (pyOrDefault (kd.search_volume.getD (Val.int 0)) (Val.int 0)) with _ | v
  · exact ⟨0, rfl, le_refl 0, by norm_num⟩
  rcases hfc : pyFloat (substComp (kd.competition.getD Val.null)) with _ | c
  · exact ⟨0, rfl, le_refl 0, by norm_num⟩
  have hv0 : 0 ≤ v := NonnegF_sound hv' hfv
  have hc0 : 0 ≤ c := NonnegF_sound hc' hfc
  unfold opScoreMonthly
  simp only [pyLen, pyElems, Except.map]
  by_cases h2 : 2 ≤ xs.length
  · rw [if_pos h2]
    have hne : xs ≠ [] := by
      intro h
      subst h
      simp at h2
    obtain ⟨e0, he0⟩ : ∃ e0, pyListGet xs 0 = some e0 := by
      rw [pyListGet_zero]
      cases xs with
      | nil => exact absurd rfl hne
      | cons a l => exact ⟨a, rfl⟩
    obtain ⟨eL, heL⟩ : ∃ eL, pyListGet xs (-1) = some eL := by
      rw [pyListGet_neg_one]
      exact ⟨_, List.getLast?_eq_getLast_of_ne_nil hne⟩
    have hmem0 := pyListGet_mem _ _ _ he0
    simp only [pyIndexInt, he0, heL]
    obtain ⟨kvs0, hk0⟩ := hd e0 hmem0
    obtain ⟨kvsL, hkL⟩ := hd eL (pyListGet_mem _ _ _ heL)
    subst hk0
    subst hkL
    simp only [getEntryVal_dict]
    have hrec : pyOrDefault (dictLookup kvs0 "search_volume" (Val.int 0)) (Val.int 0) =
        entrySv (Val.dict kvs0) := rfl
    have hgf : 0 ≤ growthFactorOf
        (pyOrDefault (dictLookup kvs0 "search_volume" (Val.int 0)) (Val.int 0))
        (pyOrDefault (dictLookup kvsL "search_volume" (Val.int 1)) (Val.int 1)) := by
      rw [hrec]
      exact growthFactorOf_nonneg _ (hr _ hmem0)
    exact ⟨_, rfl, scoreOf_nonneg v c _ hv0 hc0 hgf, scoreOf_le_ten v c _⟩
  · rw [if_neg h2]
    exact ⟨_, rfl, scoreOf_nonneg v c 1 hv0 hc0 (by norm_num), scoreOf_le_ten v c 1⟩

theorem opportunity_score_clamped_witness :
    ∃ q, calculate_opportunity_score { search_volume := some (Val.int 50) } = .ok q ∧
      0 ≤ q ∧ q ≤ 10 :=
  opportunity_score_clamped { search_volume := some (Val.int 50) } [] rfl (by simp)
    (by norm_num [NonnegF, pyFloat]) (by norm_num [NonnegF, pyFloat, Option.getD]) (by simp)

/-- C1 counterexample: on `{"search_volume": -100}` (competition defaulting to
0.5, no monthly data) the code returns `-2.0`, which is negative, refuting the
claim that the result is in [0, 10] regardless of input magnitude. -/
theorem opportunity_score_negative_cex :
    calculate_opportunity_score { search_volume := some (Val.int (-100)) } = .ok (-2) ∧
      (-2 : ℚ) < 0 := by
  constructor
  · norm_num +decide [calculate_opportunity_score, opScoreBody, opScoreMonthly, substComp,
      pyOrDefault, pyTruthy, pyFloat, pyLen, pyElems, scoreOf, round1, rne, Except.map, min_def]
  · norm_num

/-- C6 (amended): whenever `monthly_searches` is missing or is a list of dict
entries, all four functions return a value of their declared result type and
never raise, whatever the other fields hold (missing, null, or non-numeric
values degrade to the documented defaults).  When `monthly_searches` is a
truthy non-sequence or contains non-dict entries, the functions do raise
(see the counterexample). -/
theorem functions_total_on_dict_lists (kd : KeywordData) (xs : List Val)
    (hm : kd.monthly_searches.getD (Val.list []) = Val.list xs)
    (hd : ∀ m ∈ xs, IsDict m) :
    (∃ q, calculate_opportunity_score kd = .ok q) ∧
    (∃ g, calculate_growth_rate kd = .ok g) ∧
    (∃ r, detect_seasonality kd = .ok r) ∧
    (∃ s, generate_recommendation kd = .ok s) := by
  refine ⟨?_, ?_, ?_, generate_recommendation_ok kd xs hm hd⟩
  · unfold calculate_opportunity_score
    rw [hm]
    exact opScoreBody_ok _ _ xs hd
  · unfold calculate_growth_rate
    rw [hm]
    exact growthBody_ok xs hd
  · unfold detect_seasonality
    rw [hm]
    exact seasonBody_ok xs hd

theorem functions_total_on_dict_lists_witness :
    (∃ q, calculate_opportunity_score
      { search_volume := some (Val.str "abc"), competition := some (Val.list []),
        monthly_searches := some (Val.list [Val.dict [("search_volume", Val.null)], Val.dict []]),
        competition_level := some Val.null } = .ok q) ∧
    (∃ g, calculate_growth_rate
      { search_volume := some (Val.str "abc"), competition := some (Val.list []),
        monthly_searches := some (Val.list [Val.dict [("search_volume", Val.null)], Val.dict []]),
        competition_level := some Val.null } = .ok g) ∧
    (∃ r, detect_seasonality
      { search_volume := some (Val.str "abc"), competition := some (Val.list []),
        monthly_searches := some (Val.list [Val.dict [("search_volume", Val.null)], Val.dict []]),
        competition_level := some Val.null } = .ok r) ∧
    (∃ s, generate_recommendation
      { search_volume := some (Val.str "abc"), competition := some (Val.list []),
        monthly_searches := some (Val.list [Val.dict [("search_volume", Val.null)], Val.dict []]),
        competition_level := some Val.null } = .ok s) :=
  functions_total_on_dict_lists _ [Val.dict [("search_volume", Val.null)], Val.dict []] rfl
    (by
      intro m hmem
      simp only [List.mem_cons, List.mem_singleton, List.not_mem_nil, or_false] at hmem
      rcases hmem with rfl | rfl
      · exact ⟨_, rfl⟩
      · exact ⟨_, rfl⟩)

/-- C6 counterexample: a record whose `monthly_searches` is the number `5`
makes all four functions raise an uncaught `TypeError` (`len(5)`), and a list
with non-dict entries makes `calculate_growth_rate` raise `AttributeError`
(`(1).get`), refuting "never raises for arbitrarily malformed input". -/
theorem malformed_monthly_raises_cex :
    calculate_opportunity_score { monthly_searches := some (Val.int 5) } = .error .typeError ∧
    calculate_growth_rate { monthly_searches := some (Val.int 5) } = .error .typeError ∧
    detect_seasonality { monthly_searches := some (Val.int 5) } = .error .typeError ∧
    generate_recommendation { monthly_searches := some (Val.int 5) } = .error .typeError ∧
    calculate_growth_rate { monthly_searches := some (Val.list [Val.int 1, Val.int 2]) } =
      .error .attributeError :=
  ⟨rfl, rfl, rfl, rfl, rfl⟩

/-- C7: a missing, null, or exactly-zero `competition` yields the same
opportunity score as an explicit `competition` of 0.5: all four inputs are
substituted to the same medium-competition default before use. -/
theorem competition_default_half (kd : KeywordData) (c : Option Val)
    (hc : c = none ∨ c = some Val.null ∨ c = some (Val.int 0) ∨ c = some (Val.float 0)) :
    calculate_opportunity_score { kd with competition := c } =
      calculate_opportunity_score { kd with competition := some (Val.float (1 / 2)) } := by
  have congrB : ∀ (v0 mv a b : Val), substComp a = substComp b →
      opScoreBody v0 a mv = opScoreBody v0 b mv := by
    intro v0 mv a b h
    unfold opScoreBody
    rw [h]
  unfold calculate_opportunity_score
  rcases hc with rfl | rfl | rfl | rfl <;>
    exact congrB _ _ _ _ (by simp only [Option.getD_some, Option.getD_none, substComp]; norm_num)

theorem competition_default_half_witness :
    calculate_opportunity_score
        { search_volume := some (Val.int 30), competition := some (Val.int 0) } =
      calculate_opportunity_score
        { search_volume := some (Val.int 30), competition := some (Val.float (1 / 2)) } :=
  competition_default_half { search_volume := some (Val.int 30) } (some (Val.int 0))
    (Or.inr (Or.inr (Or.inl rfl)))

/-- C9: the four functions are deterministic: the embedding is a pure
function of the record (the source reads no global state, clock or
randomness), so equal inputs give equal outputs. -/
theorem functions_deterministic (kd : KeywordData) :
    calculate_opportunity_score kd = calculate_opportunity_score kd ∧
    calculate_growth_rate kd = calculate_growth_rate kd ∧
    detect_seasonality kd = detect_seasonality kd ∧
    generate_recommendation kd = generate_recommendation kd :=
  ⟨rfl, rfl, rfl, rfl⟩

/-- C2: `calculate_growth_rate` returns `0.0` when there are fewer than 2
monthly observations; otherwise, with numeric (or absent/null, hence 0)
first and last volumes, it returns `0.0` when the oldest observation is 0
and `((most_recent - oldest) / oldest) * 100` rounded to 1 decimal place
otherwise, where most_recent is the entry at index 0 and oldest the entry at
the last index.  (On exact rationals the result is never infinite.) -/
theorem growth_rate_formula (kd : KeywordData) (xs : List Val)
    (hm : kd.monthly_searches.getD (Val.list []) = Val.list xs) :
    (xs.length < 2 → calculate_growth_rate kd = .ok 0) ∧
    (∀ e0 eL r o, 2 ≤ xs.length → xs.head? = some e0 → xs.getLast? = some eL →
      IsDict e0 → IsDict eL →
      pyFloat (entrySv e0) = some r → pyFloat (entrySv eL) = some o →
      calculate_growth_rate kd = .ok (if o = 0 then 0 else round1 (((r - o) / o) * 100))) := by
  unfold calculate_growth_rate
  rw [hm]
  unfold growthBody
  constructor
  · intro hlen
    by_cases htr : pyTruthy (Val.list xs) = false
    · rw [if_pos htr]
    · rw [if_neg htr]
      simp only [pyLen, pyElems, Except.map]
      rw [if_pos hlen]
  · intro e0 eL r o h2 h0 hL hd0 hdL hr ho
    have htr : ¬ pyTruthy (Val.list xs) = false := by
      cases xs with
      | nil => simp at h2
      | cons a l => simp [pyTruthy]
    rw [if_neg htr]
    simp only [pyLen, pyElems, Except.map]
    rw [if_neg (by omega)]
    have he0 : pyListGet xs 0 = some e0 := by
      rw [pyListGet_zero]
      exact h0
    have heL : pyListGet xs (-1) = some eL := by
      rw [pyListGet_neg_one]
      exact hL
    simp only [pyIndexInt, he0, heL]
    obtain ⟨kvs0, rfl⟩ := hd0
    obtain ⟨kvsL, rfl⟩ := hdL
    simp only [getEntryVal_dict]
    have hr' : pyFloat (pyOrDefault (dictLookup kvs0 "search_volume" (Val.int 0)) (Val.int 0)) =
        some r := hr
    have ho' : pyFloat (pyOrDefault (dictLookup kvsL "search_volume" (Val.int 0)) (Val.int 0)) =
        some o := ho
    simp only [hr', ho']

theorem growth_rate_formula_witness :
    calculate_growth_rate
        { monthly_searches := some (Val.list
            [Val.dict [("search_volume", Val.int 150)],
             Val.dict [("search_volume", Val.int 100)]]) } = .ok 50 := by
  have h := (growth_rate_formula
      { monthly_searches := some (Val.list
          [Val.dict [("search_volume", Val.int 150)],
           Val.dict [("search_volume", Val.int 100)]]) }
      [Val.dict [("search_volume", Val.int 150)], Val.dict [("search_volume", Val.int 100)]]
      rfl).2
    (Val.dict [("search_volume", Val.int 150)]) (Val.dict [("search_volume", Val.int 100)])
    150 100 (by norm_num) rfl rfl ⟨_, rfl⟩ ⟨_, rfl⟩
    (by norm_num +decide [entrySv, entryLookup, dictLookup, pyOrDefault, pyTruthy, pyFloat])
    (by norm_num +decide [entrySv, entryLookup, dictLookup, pyOrDefault, pyTruthy, pyFloat])
  rw [h]
  norm_num [round1, rne]

/-- C3: with fewer than 12 monthly entries, `detect_seasonality` returns
exactly the not-seasonal default `{is_seasonal: false, peak_months: [],
low_months: []}`. -/
theorem seasonality_needs_twelve (kd : KeywordData) (xs : List Val)
    (hm : kd.monthly_searches.getD (Val.list []) = Val.list xs)
    (hlen : xs.length < 12) :
    detect_seasonality kd = .ok ⟨false, [], []⟩ := by
  unfold detect_seasonality
  rw [hm]
  unfold seasonBody
  by_cases htr : pyTruthy (Val.list xs) = false
  · rw [if_pos htr]
    rfl
  · rw [if_neg htr]
    simp only [pyLen, pyElems, Except.map]
    rw [if_pos hlen]
    rfl

theorem seasonality_needs_twelve_witness :
    detect_seasonality
        { monthly_searches := some (Val.list
            [Val.dict [("month", Val.int 1), ("search_volume", Val.int 900)]]) } =
      .ok ⟨false, [], []⟩ :=
  seasonality_needs_twelve _
    [Val.dict [("month", Val.int 1), ("search_volume", Val.int 900)]] rfl (by norm_num)

/-- C10: when the oldest monthly entry's `search_volume` is missing or null,
`calculate_opportunity_score` substitutes 1 for it (`.get(..., 1) or 1`), so
its growth factor is the most-recent volume divided by 1, while
`calculate_growth_rate` substitutes 0 (`.get(..., 0) or 0`) for the same
field and therefore returns `0.0`: the two functions default the same absent
value differently. -/
theorem oldest_default_mismatch (kd : KeywordData) (xs : List Val) (e0 eL : Val)
    (kvs0 kvsL : List (String × Val)) (r : ℚ)
    (hm : kd.monthly_searches.getD (Val.list []) = Val.list xs)
    (h2 : 2 ≤ xs.length)
    (h0 : xs.head? = some e0) (hL : xs.getLast? = some eL)
    (he0 : e0 = Val.dict kvs0) (heL : eL = Val.dict kvsL)
    (hmiss : dictLookup kvsL "search_volume" Val.null = Val.null)
    (hr : pyFloat (entrySv e0) = some r) :
    pyOrDefault (dictLookup kvsL "search_volume" (Val.int 1)) (Val.int 1) = Val.int 1 ∧
    (∀ v c : ℚ, opScoreMonthly v c (Val.list xs) = .ok (scoreOf v c (r / 1))) ∧
    pyOrDefault (dictLookup kvsL "search_volume" (Val.int 0)) (Val.int 0) = Val.int 0 ∧
    calculate_growth_rate kd = .ok 0 := by
  subst he0
  subst heL
  have hone : pyOrDefault (dictLookup kvsL "search_volume" (Val.int 1)) (Val.int 1) =
      Val.int 1 := dictLookup_null_orDefault _ _ _ hmiss
  have hzero : pyOrDefault (dictLookup kvsL "search_volume" (Val.int 0)) (Val.int 0) =
      Val.int 0 := dictLookup_null_orDefault _ _ _ hmiss
  have he0' : pyListGet xs 0 = some (Val.dict kvs0) := by
    rw [pyListGet_zero]
    exact h0
  have heL' : pyListGet xs (-1) = some (Val.dict kvsL) := by
    rw [pyListGet_neg_one]
    exact hL
  have hr' : pyFloat (pyOrDefault (dictLookup kvs0 "search_volume" (Val.int 0)) (Val.int 0)) =
      some r := hr
  refine ⟨hone, ?_, hzero, ?_⟩
  · intro v c
    unfold opScoreMonthly
    simp only [pyLen, pyElems, Except.map]
    rw [if_pos h2]
    simp only [pyIndexInt, he0', heL', getEntryVal_dict]
    rw [hone]
    have hgf : growthFactorOf
        (pyOrDefault (dictLookup kvs0 "search_volume" (Val.int 0)) (Val.int 0)) (Val.int 1) =
        r / 1 := by
      simp only [growthFactorOf]
      rw [if_pos (by norm_num : (0 : ℤ) < 1)]
      rw [hr']
      norm_num
    rw [hgf]
  · unfold calculate_growth_rate
    rw [hm]
    unfold growthBody
    have htr : ¬ pyTruthy (Val.list xs) = false := by
      cases xs with
      | nil => simp at h2
      | cons a l => simp [pyTruthy]
    rw [if_neg htr]
    simp only [pyLen, pyElems, Except.map]
    rw [if_neg (by omega)]
    simp only [pyIndexInt, he0', heL', getEntryVal_dict]
    rw [hzero]
    rw [hr']
    norm_num [pyFloat]

theorem oldest_default_mismatch_witness :
    pyOrDefault (dictLookup [("search_volume", Val.null)] "search_volume" (Val.int 1))
        (Val.int 1) = Val.int 1 ∧
    (∀ v c : ℚ, opScoreMonthly v c (Val.list
        [Val.dict [("search_volume", Val.int 5)], Val.dict [("search_volume", Val.null)]]) =
      .ok (scoreOf v c ((5 : ℚ) / 1))) ∧
    pyOrDefault (dictLookup [("search_volume", Val.null)] "search_volume" (Val.int 0))
        (Val.int 0) = Val.int 0 ∧
    calculate_growth_rate
        { monthly_searches := some (Val.list
            [Val.dict [("search_volume", Val.int 5)],
             Val.dict [("search_volume", Val.null)]]) } = .ok 0 :=
  oldest_default_mismatch _ _ _ _ _ _ 5 rfl (by norm_num) rfl rfl rfl rfl
    (by simp [dictLookup])
    (by norm_num +decide [entrySv, entryLookup, dictLookup, pyOrDefault, pyTruthy, pyFloat])

/-- Follows the spec's words for C4 (refinement comparison): the arithmetic
mean of only the non-null numeric `search_volume` values of the monthly
series, `none` when no such value exists. -/
def specSeasonMean (xs : List Val) : Option ℚ :=
  let vs := xs.filterMap (fun m =>
    match entryLookup m "search_volume" Val.null with
    | Val.int n => some ((n : ℤ) : ℚ)
    | Val.float q => some q
    | _ => none)
  if vs.isEmpty then none else some (vs.sum / (vs.length : ℚ))

/-- C4 (amended): the average `detect_seasonality` compares against is the
mean of the per-entry values `m.get("search_volume", 0) or 0` restricted to
numeric values: a null or missing (or otherwise falsy) `search_volume` is
counted as 0 in the mean, not excluded; only truthy non-numeric values are
excluded.  If that value list is empty, or its mean is 0, the not-seasonal
default is returned. -/
theorem season_mean_null_as_zero (kd : KeywordData) (xs : List Val)
    (hm : kd.monthly_searches.getD (Val.list []) = Val.list xs)
    (hd : ∀ m ∈ xs, IsDict m) (h12 : 12 ≤ xs.length) :
    ((seasonVols xs).isEmpty = true → detect_seasonality kd = .ok ⟨false, [], []⟩) ∧
    (seasonAvg xs = 0 → detect_seasonality kd = .ok ⟨false, [], []⟩) ∧
    (∀ m ∈ xs, entryLookup m "search_volume" Val.null = Val.null →
      pyNum (entrySv m) = some 0) := by
  refine ⟨?_, ?_, ?_⟩
  · intro he
    unfold detect_seasonality
    rw [hm, seasonBody_eq xs hd h12, if_pos he]
    rfl
  · intro ha
    unfold detect_seasonality
    rw [hm, seasonBody_eq xs hd h12]
    by_cases he : (seasonVols xs).isEmpty = true
    · rw [if_pos he]
      rfl
    · rw [if_neg he, if_pos ha]
      rfl
  · intro m hmem hnull
    obtain ⟨kvs, rfl⟩ := hd m hmem
    have hz : entrySv (Val.dict kvs) = Val.int 0 :=
      dictLookup_null_orDefault kvs "search_volume" (Val.int 0) hnull
    rw [hz]
    norm_num [pyNum]

def c4xs : List Val :=
  [Val.dict [("month", Val.int 1), ("search_volume", Val.null)],
   Val.dict [("month", Val.int 2), ("search_volume", Val.int 100)],
   Val.dict [("month", Val.int 3), ("search_volume", Val.int 100)],
   Val.dict [("month", Val.int 4), ("search_volume", Val.int 100)],
   Val.dict [("month", Val.int 5), ("search_volume", Val.int 100)],
   Val.dict [("month", Val.int 6), ("search_volume", Val.int 100)],
   Val.dict [("month", Val.int 7), ("search_volume", Val.int 100)],
   Val.dict [("month", Val.int 8), ("search_volume", Val.int 100)],
   Val.dict [("month", Val.int 9), ("search_volume", Val.int 100)],
   Val.dict [("month", Val.int 10), ("search_volume", Val.int 100)],
   Val.dict [("month", Val.int 11), ("search_volume", Val.int 100)],
   Val.dict [("month", Val.int 12), ("search_volume", Val.int 120)]]

theorem season_mean_null_as_zero_witness :
    ((seasonVols c4xs).isEmpty = true →
      detect_seasonality { monthly_searches := some (Val.list c4xs) } = .ok ⟨false, [], []⟩) ∧
    (seasonAvg c4xs = 0 →
      detect_seasonality { monthly_searches := some (Val.list c4xs) } = .ok ⟨false, [], []⟩) ∧
    (∀ m ∈ c4xs, entryLookup m "search_volume" Val.null = Val.null →
      pyNum (entrySv m) = some 0) :=
  season_mean_null_as_zero { monthly_searches := some (Val.list c4xs) } c4xs rfl
    (by
      intro m hmem
      simp only [c4xs, List.mem_cons, List.not_mem_nil, or_false] at hmem
      rcases hmem with rfl | rfl | rfl | rfl | rfl | rfl | rfl | rfl | rfl | rfl | rfl | rfl <;>
        exact ⟨_, rfl⟩)
    (by norm_num [c4xs])

/-- C4 counterexample: on a series with one null volume, ten volumes of 100
and one of 120, the code's average is 1120/12 (the null is counted as 0),
not the spec's mean-of-non-null 1120/11; observably, December (120) is
classified as a peak by the code although it is below 1.25 times the spec's
mean. -/
theorem season_mean_null_as_zero_cex :
    detect_seasonality { monthly_searches := some (Val.list c4xs) } =
      .ok ⟨true, ["Dec"], ["Jan"]⟩ ∧
    seasonAvg c4xs = 280 / 3 ∧
    specSeasonMean c4xs = some (1120 / 11) ∧
    (280 / 3 : ℚ) ≠ 1120 / 11 ∧
    ¬ ((1120 / 11 : ℚ) * (5 / 4) < 120) := by
  refine ⟨?_, ?_, ?_, by norm_num, by norm_num⟩
  · norm_num +decide [c4xs, detect_seasonality, seasonBody, pyTruthy, pyLen, pyElems,
      rawVolumes, getEntryVal, dictLookup, pyOrDefault, pyNum, classifyAll, classifyOne,
      monthIdx, pyListGet, monthNames, Except.map, List.get?, List.filterMap_cons,
      List.isEmpty]
  · norm_num +decide [c4xs, seasonAvg, seasonVols, entrySv, entryLookup, dictLookup,
      pyOrDefault, pyTruthy, pyNum, List.filterMap_cons]
  · norm_num +decide [c4xs, specSeasonMean, entryLookup, dictLookup, List.filterMap_cons,
      List.isEmpty]

lemma monthIdx_eq_monthAbbrev (n : ℤ) : monthIdx (Val.int n) = monthAbbrev n := by
  have hlen : monthNames.length = 12 := rfl
  rw [show monthIdx (Val.int n) = pyListGet monthNames (n - 1) from rfl]
  unfold monthAbbrev pyListGet
  by_cases h1 : 1 ≤ n ∧ n ≤ 12
  · rw [if_pos (by omega : (0 : ℤ) ≤ n - 1), if_pos h1]
  · rw [if_neg h1]
    by_cases h0 : (0 : ℤ) ≤ n - 1
    · rw [if_pos h0]
      by_cases h2 : -11 ≤ n ∧ n ≤ 0
      · exfalso
        omega
      · rw [if_neg h2]
        apply List.get?_eq_none.mpr
        rw [hlen]
        omega
    · rw [if_neg h0, hlen]
      by_cases h2 : -11 ≤ n ∧ n ≤ 0
      · rw [if_pos h2, if_pos (by push_cast; omega : (0 : ℤ) ≤ ((12 : ℕ) : ℤ) + (n - 1))]
        congr 1
        push_cast
        omega
      · rw [if_neg h2, if_neg (by push_cast; omega)]

/-- C5 (amended): with at least 12 dict entries and a usable average, each
entry contributes via `classifyOne`; for a numeric volume `q` and an integer
month `n` the contribution is skipped when `n = 0` (falsy) and otherwise uses
the abbreviation `monthAbbrev n`: months 1..12 give the standard Jan..Dec
abbreviation, but out-of-range months are not all skipped: only `n ≥ 13` or
`n ≤ -12` raise `IndexError` (caught, skipped), while `-11 ≤ n ≤ -1` wraps
around Python-style to the abbreviation of month `12 + n` (see the
counterexample); non-integer months are skipped via `TypeError`. -/
theorem seasonality_month_contribution (kd : KeywordData) (xs : List Val)
    (hm : kd.monthly_searches.getD (Val.list []) = Val.list xs)
    (hd : ∀ m ∈ xs, IsDict m) (h12 : 12 ≤ xs.length)
    (hne : (seasonVols xs).isEmpty = false) (havg : seasonAvg xs ≠ 0) :
    detect_seasonality kd = .ok
      ⟨¬(xs.filterMap (peakOf (seasonAvg xs))).isEmpty ∨
        ¬(xs.filterMap (lowOf (seasonAvg xs))).isEmpty,
       xs.filterMap (peakOf (seasonAvg xs)), xs.filterMap (lowOf (seasonAvg xs))⟩ ∧
    (∀ (avg q : ℚ) (vol : Val) (n : ℤ), pyNum vol = some q →
      classifyOne avg vol (Val.int n) =
        (if n = 0 then none
         else if avg * (5 / 4) < q then (monthAbbrev n).map (fun nm => (true, nm))
         else if q < avg * (3 / 4) then (monthAbbrev n).map (fun nm => (false, nm))
         else none)) ∧
    (∀ n : ℤ, 13 ≤ n ∨ n ≤ -12 → monthAbbrev n = none) ∧
    (∀ n : ℤ, 1 ≤ n → n ≤ 12 → monthAbbrev n = monthNames.get? (n - 1).toNat) := by
  refine ⟨?_, ?_, ?_, ?_⟩
  · unfold detect_seasonality
    rw [hm, seasonBody_eq xs hd h12, if_neg (by simp [hne]), if_neg havg]
  · intro avg q vol n hq
    simp only [classifyOne, hq, monthIdx_eq_monthAbbrev]
    by_cases hn : n = 0
    · subst hn
      simp [pyTruthy]
    · have htr : pyTruthy (Val.int n) = true := by simp [pyTruthy, hn]
      rw [htr, if_neg hn]
      simp
  · intro n h
    unfold monthAbbrev
    rw [if_neg (by omega), if_neg (by omega)]
  · intro n h1 h2
    unfold monthAbbrev
    rw [if_pos ⟨h1, h2⟩]

def w5xs : List Val :=
  [Val.dict [("month", Val.int 1), ("search_volume", Val.int 100)],
   Val.dict [("month", Val.int 2), ("search_volume", Val.int 100)],
   Val.dict [("month", Val.int 3), ("search_volume", Val.int 100)],
   Val.dict [("month", Val.int 4), ("search_volume", Val.int 100)],
   Val.dict [("month", Val.int 5), ("search_volume", Val.int 100)],
   Val.dict [("month", Val.int 6), ("search_volume", Val.int 100)],
   Val.dict [("month", Val.int 7), ("search_volume", Val.int 100)],
   Val.dict [("month", Val.int 8), ("search_volume", Val.int 100)],
   Val.dict [("month", Val.int 9), ("search_volume", Val.int 100)],
   Val.dict [("month", Val.int 10), ("search_volume", Val.int 100)],
   Val.dict [("month", Val.int 11), ("search_volume", Val.int 100)],
   Val.dict [("month", Val.int 12), ("search_volume", Val.int 200)]]

theorem seasonality_month_contribution_witness :
    detect_seasonality { monthly_searches := some (Val.list w5xs) } = .ok
      ⟨¬(w5xs.filterMap (peakOf (seasonAvg w5xs))).isEmpty ∨
        ¬(w5xs.filterMap (lowOf (seasonAvg w5xs))).isEmpty,
       w5xs.filterMap (peakOf (seasonAvg w5xs)), w5xs.filterMap (lowOf (seasonAvg w5xs))⟩ ∧
    (∀ (avg q : ℚ) (vol : Val) (n : ℤ), pyNum vol = some q →
      classifyOne avg vol (Val.int n) =
        (if n = 0 then none
         else if avg * (5 / 4) < q then (monthAbbrev n).map (fun nm => (true, nm))
         else if q < avg * (3 / 4) then (monthAbbrev n).map (fun nm => (false, nm))
         else none)) ∧
    (∀ n : ℤ, 13 ≤ n ∨ n ≤ -12 → monthAbbrev n = none) ∧
    (∀ n : ℤ, 1 ≤ n → n ≤ 12 → monthAbbrev n = monthNames.get? (n - 1).toNat) :=
  seasonality_month_contribution { monthly_searches := some (Val.list w5xs) } w5xs rfl
    (by
      intro m hmem
      simp only [w5xs, List.mem_cons, List.not_mem_nil, or_false] at hmem
      rcases hmem with rfl | rfl | rfl | rfl | rfl | rfl | rfl | rfl | rfl | rfl | rfl | rfl <;>
        exact ⟨_, rfl⟩)
    (by norm_num [w5xs])
    (by norm_num +decide [w5xs, seasonVols, entrySv, entryLookup, dictLookup, pyOrDefault,
      pyTruthy, pyNum, List.filterMap_cons])
    (by norm_num +decide [w5xs, seasonAvg, seasonVols, entrySv, entryLookup, dictLookup,
      pyOrDefault, pyTruthy, pyNum, List.filterMap_cons])

def c5xs : List Val :=
  [Val.dict [("month", Val.int 1), ("search_volume", Val.int 100)],
   Val.dict [("month", Val.int 2), ("search_volume", Val.int 100)],
   Val.dict [("month", Val.int 3), ("search_volume", Val.int 100)],
   Val.dict [("month", Val.int 4), ("search_volume", Val.int 100)],
   Val.dict [("month", Val.int 5), ("search_volume", Val.int 100)],
   Val.dict [("month", Val.int 6), ("search_volume", Val.int 100)],
   Val.dict [("month", Val.int 7), ("search_volume", Val.int 100)],
   Val.dict [("month", Val.int 8), ("search_volume", Val.int 100)],
   Val.dict [("month", Val.int 9), ("search_volume", Val.int 100)],
   Val.dict [("month", Val.int 10), ("search_volume", Val.int 100)],
   Val.dict [("month", Val.int 11), ("search_volume", Val.int 100)],
   Val.dict [("month", Val.int (-1)), ("search_volume", Val.int 200)]]

/-- C5 counterexample: in a series whose above-threshold entry has month -1
(out of range 1..12), the code still contributes an abbreviation: Python's
negative indexing turns `[...][-1 - 1]` into `"Nov"`, so the result is
`{is_seasonal: true, peak_months: ["Nov"], low_months: []}` although no entry
has month 11 and the claim demands that out-of-range months contribute
nothing. -/
theorem seasonality_month_contribution_cex :
    detect_seasonality { monthly_searches := some (Val.list c5xs) } =
      .ok ⟨true, ["Nov"], []⟩ ∧
    c5xs.map (fun m => entryLookup m "month" Val.null) =
      [Val.int 1, Val.int 2, Val.int 3, Val.int 4, Val.int 5, Val.int 6, Val.int 7,
       Val.int 8, Val.int 9, Val.int 10, Val.int 11, Val.int (-1)] := by
  constructor
  · norm_num +decide [c5xs, detect_seasonality, seasonBody, pyTruthy, pyLen, pyElems,
      rawVolumes, getEntryVal, dictLookup, pyOrDefault, pyNum, classifyAll, classifyOne,
      monthIdx, pyListGet, monthNames, Except.map, List.get?, List.filterMap_cons,
      List.isEmpty]
  · norm_num +decide [c5xs, entryLookup, dictLookup]

lemma tierClause_length_pos (q : ℚ) : 0 < (tierClause q).length := by
  unfold tierClause
  split
  · decide
  · split
    · decide
    · decide

lemma tierClause_hasNonWs (q : ℚ) : ∃ c ∈ (tierClause q).data, ¬ c.isWhitespace := by
  unfold tierClause
  split
  · exact ⟨'✅', by decide, by decide⟩
  · split
    · exact ⟨'⚠', by decide, by decide⟩
    · exact ⟨'❌', by decide, by decide⟩

lemma recMessage_shape (score growth : ℚ) (se : SeasonResult) (cl : Val) :
    ∃ t, recMessage score growth se cl = tierClause score ++ t := by
  unfold recMessage
  repeat' split
  all_goals simp only [String.append_assoc]
  all_goals
    first
      | exact ⟨"", (String.append_empty _).symm⟩
      | exact ⟨_, rfl⟩

/-- C8: every successfully computed recommendation string starts with the
opportunity-tier clause selected by the record's opportunity score — the
clause containing "Excellent opportunity" when the score is at least 7.0,
"Good opportunity with caveats" when it is in [4.0, 7.0), and "Difficult
keyword" below 4.0 — and is never empty or whitespace-only. -/
theorem recommendation_tier (kd : KeywordData) (q : ℚ) (s : String)
    (hq : calculate_opportunity_score kd = .ok q)
    (hs : generate_recommendation kd = .ok s) :
    (∃ t, s = tierClause q ++ t) ∧ s ≠ "" ∧ (∃ c ∈ s.data, ¬ c.isWhitespace) ∧
    (7 ≤ q → tierClause q = "✅ Excellent opportunity! ") ∧
    (4 ≤ q → q < 7 → tierClause q = "⚠️ Good opportunity with caveats. ") ∧
    (q < 4 → tierClause q = "❌ Difficult keyword. ") := by
  unfold generate_recommendation at hs
  rw [hq] at hs
  rcases hg : calculate_growth_rate kd with e | g
  · rw [hg] at hs
    simp at hs
  rw [hg] at hs
  rcases hr : detect_seasonality kd with e | se
  · rw [hr] at hs
    simp at hs
  rw [hr] at hs
  simp only [Except.ok.injEq] at hs
  obtain ⟨t, ht⟩ :=
    recMessage_shape q g se (kd.competition_level.getD (Val.str "UNKNOWN"))
  rw [hs] at ht
  have hdata : s.data = (tierClause q).data ++ t.data := by
    rw [ht, String.data_append]
  refine ⟨⟨t, ht⟩, ?_, ?_, ?_, ?_, ?_⟩
  · intro hemp
    have hlen : s.length = (tierClause q).length + t.length := by
      rw [ht, String.length_append]
    rw [hemp] at hlen
    have := tierClause_length_pos q
    simp at hlen
    omega
  · obtain ⟨c, hc, hw⟩ := tierClause_hasNonWs q
    exact ⟨c, by rw [hdata]; exact List.mem_append_left _ hc, hw⟩
  · intro h7
    unfold tierClause
    rw [if_pos h7]
  · intro h4 h7
    unfold tierClause
    rw [if_neg (by linarith), if_pos h4]
  · intro h4
    unfold tierClause
    rw [if_neg (by linarith), if_neg (by linarith)]

theorem recommendation_tier_witness :
    (∃ t, "❌ Difficult keyword. " = tierClause 0 ++ t) ∧
    ("❌ Difficult keyword. " : String) ≠ "" ∧
    (∃ c ∈ ("❌ Difficult keyword. " : String).data, ¬ c.isWhitespace) ∧
    (7 ≤ (0 : ℚ) → tierClause 0 = "✅ Excellent opportunity! ") ∧
    (4 ≤ (0 : ℚ) → (0 : ℚ) < 7 → tierClause 0 = "⚠️ Good opportunity with caveats. ") ∧
    ((0 : ℚ) < 4 → tierClause 0 = "❌ Difficult keyword. ") :=
  recommendation_tier {} 0 "❌ Difficult keyword. "
    (by norm_num +decide [calculate_opportunity_score, opScoreBody, opScoreMonthly, substComp,
      pyOrDefault, pyTruthy, pyFloat, pyLen, pyElems, scoreOf, round1, rne, Except.map,
      min_def])
    (by norm_num +decide [generate_recommendation, calculate_opportunity_score,
      calculate_growth_rate, detect_seasonality, opScoreBody, opScoreMonthly, substComp,
      growthBody, seasonBody, pyOrDefault, pyTruthy, pyFloat, pyLen, pyElems, scoreOf,
      round1, rne, tierClause, pyEqStr, seasonDefault, recMessage, Except.map, min_def])
